import Mathlib

/-!
# Verification of the `gabsa` ABSA pipeline (shallow embedding)

This development embeds the decision-relevant parts of `src/gabsa/main.py`
and `src/gabsa/model.py` as executable Lean definitions, and proves or
refutes the specification claims about them.

Conventions:
* Python strings are `String`; Python `in` on strings is substring search,
  embedded as `containsSub`.
* The argparse `Namespace` is an association list from attribute name to
  `PyVal`; attribute access that can fail returns `Option PyVal`.
* Functions that can raise return `Except String _`, the error string naming
  the Python exception class.
* Side effects of `main` (logging, dataset building, directory creation and
  CSV writes, phase calls) are reified as a trace, a `List Effect`.
-/

/-- A Python value stored in the argparse namespace.  Floats are kept as
their literal text (no claim depends on float arithmetic); a constructed
`Pattern` object is kept as its task name and option-file path (no claim
depends on pattern contents). -/
inductive PyVal where
  | pstr (s : String)
  | pint (n : Int)
  | pbool (b : Bool)
  | pfloat (lit : String)
  | ppattern (task : String) (optionsPath : String)
  | pnone
  deriving Repr, DecidableEq

/-- Modelled from the spec: the module `model_types` (imported by
`main.py` but not present under `src/`) exposes the sequence-to-sequence
membership set, per spec section 4.1: identifiers "t5", "byt5", "mt5",
"bart", "mbart". -/
def model_types.seq2seq : List String := ["t5", "byt5", "mt5", "bart", "mbart"]

/-- Modelled from the spec: the module `model_types` (imported by
`main.py` but not present under `src/`) exposes the language-modeling
(causal LM) membership set, per spec section 4.1: identifiers "xglm",
"gpt2". -/
def model_types.lm : List String := ["xglm", "gpt2"]

/-- The seven identifiers handled in the factory by the `if`/`elif` chain in
`model.py` (lines 22-42). -/
def registry_ids : List String := ["t5", "byt5", "mt5", "xglm", "bart", "mbart", "gpt2"]

/-- Character-list prefix test (structural recursion, so it evaluates in
the kernel). -/
def charsPre : List Char → List Char → Bool
  | [], _ => true
  | _ :: _, [] => false
  | c :: cs, d :: ds => c = d && charsPre cs ds

/-- Does `needle` start at some position of `hay` (including the final,
empty position)? -/
def containsSubAux (needle : List Char) : List Char → Bool
  | [] => charsPre needle []
  | c :: cs => charsPre needle (c :: cs) || containsSubAux needle cs

/-- The Python substring test `needle in hay` on strings. -/
def containsSub (hay needle : String) : Bool :=
  containsSubAux needle.data hay.data

/-- Embeds `main.py` line 68:
`args.prompt_side = "left" if args.model_type in model_types.seq2seq else "right"`.
`model_type` is an optional argument (default `None`); `None in seq2seq` is
false in Python, handled by the `Option` match. -/
def prompt_side (model_type : Option String) : String :=
  match model_type with
  | some mt => if mt ∈ model_types.seq2seq then "left" else "right"
  | none => "right"

/-- Embeds `main.py` lines 314-318: the size-tag scan.  The Python loop
has no `break`, so each later match overwrites the earlier one. -/
def model_size_of (model_name_or_path : String) : String :=
  ["small", "large", "base"].foldl
    (fun acc size => if containsSub model_name_or_path size then size else acc)
    "nosize"

/-- The size tag as the SPEC words it ("the first of small/large/base found
as a substring of the checkpoint path, else nosize").  Stated for
comparison with `model_size_of`, which embeds the source. -/
def model_size_spec_first (model_name_or_path : String) : String :=
  match ["small", "large", "base"].find? (fun size => containsSub model_name_or_path size) with
  | some s => s
  | none => "nosize"

/-- The size tag as the code actually computes it, in closed form: the LAST
of small/large/base (in that scan order) occurring as a substring, i.e.
"base" takes precedence over "large" over "small". -/
def model_size_last (model_name_or_path : String) : String :=
  if containsSub model_name_or_path "base" then "base"
  else if containsSub model_name_or_path "large" then "large"
  else if containsSub model_name_or_path "small" then "small"
  else "nosize"

/-- Embeds `main.py` line 320: `os.path.join(args.output_dir, args.model_type,
f"...")` with the f-string `{model_type}_pabsa_S{max_len}_{model_size}`.
`os.path.join` with relative components inserts "/" separators. -/
def output_dir_of (output_dir model_type : String) (max_len : Int)
    (model_name_or_path : String) : String :=
  output_dir ++ "/" ++ model_type ++ "/" ++ model_type ++ "_pabsa_S"
    ++ toString max_len ++ "_" ++ model_size_of model_name_or_path

theorem model_size_of_eq_last (p : String) : model_size_of p = model_size_last p := by
  unfold model_size_of model_size_last
  rfl

/-! ## The argparse namespace and `init_args` (`main.py` lines 30-72) -/

/-- The raw CLI option values an invocation supplies, one field per
`add_argument` call in `init_args` (`main.py` lines 33-61), with the argparse
defaults as Lean defaults.  Optional string arguments without a default
parse to `None`, hence `Option String`. -/
structure CLIInput where
  do_train : Bool := false
  do_eval : Bool := false
  do_predict : Bool := false
  train_args : Option String := none
  model_type : Option String := none
  model_name_or_path : Option String := none
  max_len : Int := 128
  task : String
  paradigm : String := "extraction"
  prompt_option_path : Option String := none
  prompt_path : Option String := none
  pattern : Option String := none
  data_dir : String := ""
  trains : String := ""
  devs : String := ""
  tests : String := ""
  blank_frac : String := "1.0"
  random_state : Int := 42
  output_dir : Option String := none
  per_device_predict_batch_size : Int := 16
  deriving Repr, DecidableEq

/-- Attribute lookup on a namespace: `getattr`, `none` meaning
`AttributeError`. -/
def lookupAttr (ns : List (String × PyVal)) (name : String) : Option PyVal :=
  match ns with
  | [] => none
  | (k, v) :: rest => if k = name then some v else lookupAttr rest name

/-- Attribute assignment on a namespace: `setattr`, overwriting an existing
binding or appending a new one. -/
def setAttr (ns : List (String × PyVal)) (name : String) (v : PyVal) :
    List (String × PyVal) :=
  match ns with
  | [] => [(name, v)]
  | (k, w) :: rest => if k = name then (k, v) :: rest else (k, w) :: setAttr rest name v

/-- Lift an optional string argument to its namespace value (`None` or the
string). -/
def optVal : Option String → PyVal
  | some s => .pstr s
  | none => .pnone

/-- The namespace produced by `parser.parse_args()` (`main.py` line 62):
exactly the declared destinations, in declaration order.  Note there is NO
`prompt_option` attribute: the declared flag is `--prompt_option_path`. -/
def parse_args_namespace (cli : CLIInput) : List (String × PyVal) :=
  [("do_train", .pbool cli.do_train),
   ("do_eval", .pbool cli.do_eval),
   ("do_predict", .pbool cli.do_predict),
   ("train_args", optVal cli.train_args),
   ("model_type", optVal cli.model_type),
   ("model_name_or_path", optVal cli.model_name_or_path),
   ("max_len", .pint cli.max_len),
   ("task", .pstr cli.task),
   ("paradigm", .pstr cli.paradigm),
   ("prompt_option_path", optVal cli.prompt_option_path),
   ("prompt_path", optVal cli.prompt_path),
   ("pattern", optVal cli.pattern),
   ("data_dir", .pstr cli.data_dir),
   ("trains", .pstr cli.trains),
   ("devs", .pstr cli.devs),
   ("tests", .pstr cli.tests),
   ("blank_frac", .pfloat cli.blank_frac),
   ("random_state", .pint cli.random_state),
   ("output_dir", optVal cli.output_dir),
   ("per_device_predict_batch_size", .pint cli.per_device_predict_batch_size)]

/-- Python `int(s)` on a string: strips surrounding whitespace, then parses
an optionally signed decimal literal; failure is a `ValueError`. -/
def pyIntOfString (s : String) : Option Int :=
  s.trim.toInt?

/-- Embeds `main.py` lines 64-67:
`try: args.prompt_option = int(args.prompt_option)`
`except: pass`.
The attribute read, the `int` conversion, and the assignment all happen
inside the `try`; any exception (`AttributeError` when the attribute is
missing, `ValueError` when the string is not an integer literal,
`TypeError` on a non-convertible value) is swallowed by the bare
`except`, leaving the namespace unchanged. -/
def try_coerce_prompt_option (ns : List (String × PyVal)) : List (String × PyVal) :=
  match lookupAttr ns "prompt_option" with
  | none => ns
  | some (.pstr s) =>
    match pyIntOfString s with
    | some n => setAttr ns "prompt_option" (.pint n)
    | none => ns
  | some (.pint n) => setAttr ns "prompt_option" (.pint n)
  | some (.pbool b) => setAttr ns "prompt_option" (.pint (if b then 1 else 0))
  | some _ => ns

/-- Embeds `init_args` (`main.py` lines 30-72) after `parse_args`: the
prompt-option coercion attempt, the `prompt_side` derivation, and the
eager `Pattern` construction when a pattern file is given (the contents of the
file are not modelled; the constructed object is tagged with the task
and the pattern path). -/
def init_args (cli : CLIInput) : List (String × PyVal) :=
  let ns := parse_args_namespace cli
  let ns := try_coerce_prompt_option ns
  let ns := setAttr ns "prompt_side" (.pstr (prompt_side cli.model_type))
  match cli.pattern with
  | some p => setAttr ns "pattern" (.ppattern cli.task p)
  | none => ns

/-! ## The model-and-tokenizer factory (`model.py` lines 19-45) -/

/-- The transformers model classes instantiated by the factory. -/
inductive ModelClass where
  | T5ForConditionalGeneration
  | MT5ForConditionalGeneration
  | XGLMForCausalLM
  | BartForConditionalGeneration
  | MBartForConditionalGeneration
  | GPT2LMHeadModel
  deriving Repr, DecidableEq

/-- The transformers tokenizer classes instantiated by the factory. -/
inductive TokenizerClass where
  | T5TokenizerFast
  | ByT5Tokenizer
  | XGLMTokenizerFast
  | BartTokenizerFast
  | MBartTokenizerFast
  | GPT2TokenizerFast
  deriving Repr, DecidableEq

/-- A model instance as produced by `Cls.from_pretrained(model_name_or_path,
**model_args)`: the class, the checkpoint location, and the keyword
arguments passed through. -/
structure ModelInstance where
  cls : ModelClass
  path : String
  kwargs : List (String × PyVal)
  deriving Repr, DecidableEq

/-- A tokenizer instance as produced by `Cls.from_pretrained(
model_name_or_path, **tokenizer_args)`. -/
structure TokenizerInstance where
  cls : TokenizerClass
  path : String
  kwargs : List (String × PyVal)
  deriving Repr, DecidableEq

/-- The dict returned at `model.py` line 45:
`{"model": ..., "tokenizer": ..., "type": ..., "model_name_or_path": ...}`. -/
structure Bundle where
  model : ModelInstance
  tokenizer : TokenizerInstance
  type : String
  model_name_or_path : String
  deriving Repr, DecidableEq

/-- Embeds `get_gabsa_tokenizer_and_model` (`model.py` lines 19-45): the
`if`/`elif` chain over the seven identifiers; any other identifier raises
`NotImplementedError` before any model or tokenizer is constructed. -/
def get_gabsa_tokenizer_and_model (model_type model_name_or_path : String)
    (model_args tokenizer_args : List (String × PyVal)) : Except String Bundle :=
  if model_type = "t5" then
    .ok ⟨⟨.T5ForConditionalGeneration, model_name_or_path, model_args⟩,
      ⟨.T5TokenizerFast, model_name_or_path, tokenizer_args⟩, model_type, model_name_or_path⟩
  else if model_type = "byt5" then
    .ok ⟨⟨.T5ForConditionalGeneration, model_name_or_path, model_args⟩,
      ⟨.ByT5Tokenizer, model_name_or_path, tokenizer_args⟩, model_type, model_name_or_path⟩
  else if model_type = "mt5" then
    .ok ⟨⟨.MT5ForConditionalGeneration, model_name_or_path, model_args⟩,
      ⟨.T5TokenizerFast, model_name_or_path, tokenizer_args⟩, model_type, model_name_or_path⟩
  else if model_type = "xglm" then
    .ok ⟨⟨.XGLMForCausalLM, model_name_or_path, model_args⟩,
      ⟨.XGLMTokenizerFast, model_name_or_path, tokenizer_args⟩, model_type, model_name_or_path⟩
  else if model_type = "bart" then
    .ok ⟨⟨.BartForConditionalGeneration, model_name_or_path, model_args⟩,
      ⟨.BartTokenizerFast, model_name_or_path, tokenizer_args⟩, model_type, model_name_or_path⟩
  else if model_type = "mbart" then
    .ok ⟨⟨.MBartForConditionalGeneration, model_name_or_path, model_args⟩,
      ⟨.MBartTokenizerFast, model_name_or_path, tokenizer_args⟩, model_type, model_name_or_path⟩
  else if model_type = "gpt2" then
    .ok ⟨⟨.GPT2LMHeadModel, model_name_or_path, model_args⟩,
      ⟨.GPT2TokenizerFast, model_name_or_path, tokenizer_args⟩, model_type, model_name_or_path⟩
  else
    .error "NotImplementedError"

/-! ## `batch_encode` (`main.py` lines 74-81) -/

/-- The shape of the tokenizer call issued by `batch_encode`: either one
joint text (`tokenizer(x, **encoding_args)`) or a source text with a
separate target text (`tokenizer(x, text_target=y, **encoding_args)`).
The encoding arguments are passed through unchanged in both branches and
are not part of the shape. -/
inductive TokenizerCall where
  | joint (text : String)
  | withTarget (text : String) (text_target : String)
  deriving Repr, DecidableEq

/-- Embeds `batch_encode` (`main.py` lines 74-81) for one example.
`text_target` stands for the result of `batch_stringify_target`
(`preprocessing.py`, not under `src/`), which is computed before the
branch and used identically by both branches.  A language-model type
tokenizes `x["input"] + " " + text_target` jointly; a
sequence-to-sequence type passes `x["input"]` and `text_target`
separately; any other type raises `NotImplementedError`. -/
def batch_encode (model_type : String) (input text_target : String) :
    Except String TokenizerCall :=
  if model_type ∈ model_types.lm then
    .ok (.joint (input ++ " " ++ text_target))
  else if model_type ∈ model_types.seq2seq then
    .ok (.withTarget input text_target)
  else
    .error "NotImplementedError"

/-! ## Tokenizer construction in the train and predict phases -/

/-- Embeds `train_gabsa_model` lines 84-86: `tokenizer_args["padding_side"]`
is "left" when the model type is in the language-modeling family, else
"right" (the dict starts empty, so this is its only entry). -/
def train_tokenizer_args (model_type : String) : List (String × PyVal) :=
  [("padding_side", .pstr (if model_type ∈ model_types.lm then "left" else "right"))]

/-- Embeds `predict_gabsa_model` lines 202-204: the same `padding_side`
derivation as in the training phase. -/
def predict_tokenizer_args (model_type : String) : List (String × PyVal) :=
  [("padding_side", .pstr (if model_type ∈ model_types.lm then "left" else "right"))]

/-- Embeds `train_gabsa_model` lines 84-92: `model_args` is the empty dict
and the tokenizer args carry only the padding side when the factory is
invoked. -/
def train_phase_bundle (model_type model_name_or_path : String) : Except String Bundle :=
  get_gabsa_tokenizer_and_model model_type model_name_or_path [] (train_tokenizer_args model_type)

/-- Embeds `predict_gabsa_model` lines 202-210: same factory invocation
shape as the training phase. -/
def predict_phase_bundle (model_type model_name_or_path : String) : Except String Bundle :=
  get_gabsa_tokenizer_and_model model_type model_name_or_path [] (predict_tokenizer_args model_type)

/-- The tokenizer keyword arguments inside a factory result, when it is a
bundle. -/
def bundleTokenizerArgs : Except String Bundle → Option (List (String × PyVal))
  | .ok b => some b.tokenizer.kwargs
  | .error _ => none

/-! ## The orchestrator `main` (`main.py` lines 278-332), as an effect trace -/

/-- One observable side effect of `main`, in order of occurrence. -/
inductive Effect where
  | log_info (msg : String)
  | build_dataset
  | makedirs (path : String)
  | write_csv (path : String)
  | call_train
  | call_predict
  deriving Repr, DecidableEq

/-- The literal message logged at `main.py` line 283. -/
def no_phase_msg : String :=
  "do_train is False, do_eval is False, do_eval_best is False, do_predict is False too. WHAT DO YOU WANT TO DO THEN???"

/-- Embeds `main` (`main.py` lines 278-332) as the ordered trace of its
side effects.  With no phase flag set, it logs and returns before any
dataset loading or file write (lines 282-284).  Otherwise it builds the
dataset splits (line 304), computes the output directory (line 320),
creates `output_dir/data` (with its parents) only when `output_dir`
itself does not exist (lines 321-322), writes the three split CSVs
(lines 326-328), then calls the training phase when `do_train` and the
prediction phase when `do_predict` (lines 329-332).  When any of
`model_name_or_path` / `output_dir` / `model_type` is `None`, the
size-tag scan or path join raises a `TypeError`; the partial trace
before that crash is not modelled here, as no claim depends on it. -/
def main_run (cli : CLIInput) (fs : List String) : Except String (List Effect) :=
  if !cli.do_train && !cli.do_eval && !cli.do_predict then
    .ok [.log_info no_phase_msg]
  else
    match cli.model_name_or_path, cli.output_dir, cli.model_type with
    | some mnp, some od0, some mt =>
      let od := output_dir_of od0 mt cli.max_len mnp
      .ok ([.build_dataset]
        ++ (if od ∈ fs then [] else [.makedirs (od ++ "/data")])
        ++ [.write_csv (od ++ "/data/train.csv"),
            .write_csv (od ++ "/data/dev.csv"),
            .write_csv (od ++ "/data/test.csv")]
        ++ (if cli.do_train then [.call_train] else [])
        ++ (if cli.do_predict then [.call_predict] else []))
    | _, _, _ => .error "TypeError"

/-! ## Claims -/

/-- C1 (counterexample): the claim says `args.prompt_side` is "left"
exactly for the causal-language-model family and "right" exactly for the
sequence-to-sequence family.  At model type "gpt2" (in the causal-LM
family) `init_args` computes "right", and at "t5" (sequence-to-sequence)
it computes "left": the code derives the sides the other way around. -/
theorem C1_counterexample :
    "gpt2" ∈ model_types.lm ∧
    lookupAttr (init_args { task := "aste", model_type := some "gpt2" }) "prompt_side" =
      some (.pstr "right") ∧
    "t5" ∈ model_types.seq2seq ∧
    lookupAttr (init_args { task := "aste", model_type := some "t5" }) "prompt_side" =
      some (.pstr "left") := by
  refine ⟨by decide, by decide, by decide, by decide⟩

/-- C1 (amended): for every model type, the prompt attachment side
computed by `init_args` is "left" exactly when the model type is in the
sequence-to-sequence family {t5, byt5, mt5, bart, mbart} and "right"
otherwise — in particular "right" for the causal-LM family
{xglm, gpt2}. -/
theorem C1_amended (cli : CLIInput) (mt : String) (h : cli.model_type = some mt) :
    (lookupAttr (init_args cli) "prompt_side" = some (.pstr "left") ↔
      mt ∈ model_types.seq2seq) ∧
    (lookupAttr (init_args cli) "prompt_side" = some (.pstr "right") ↔
      mt ∉ model_types.seq2seq) := by
  have hside : lookupAttr (init_args cli) "prompt_side" =
      some (.pstr (prompt_side cli.model_type)) := by
    unfold init_args
    rcases hpat : cli.pattern with _ | p <;>
      simp [parse_args_namespace, try_coerce_prompt_option, lookupAttr, setAttr]
  rw [hside, h]
  unfold prompt_side
  by_cases hm : mt ∈ model_types.seq2seq <;> simp [hm]

/-- C1 (witness for the amended theorem at a concrete input). -/
theorem C1_amended_witness :
    lookupAttr (init_args { task := "aste", model_type := some "bart" }) "prompt_side" =
      some (.pstr "left") :=
  (C1_amended { task := "aste", model_type := some "bart" } "bart" rfl).1.mpr (by decide)

/-- C2 (counterexample): the claim says the size tag is the FIRST of
"small"/"large"/"base" occurring as a substring of the checkpoint path.
For the path "t5-small-base" the first such tag is "small", yet the code
(whose loop has no break, so later matches overwrite earlier ones)
computes "base", and the output directory ends in `_base`, not
`_small`. -/
theorem C2_counterexample :
    model_size_spec_first "t5-small-base" = "small" ∧
    output_dir_of "out" "t5" 128 "t5-small-base" = "out/t5/t5_pabsa_S128_base" ∧
    output_dir_of "out" "t5" 128 "t5-small-base" ≠ "out/t5/t5_pabsa_S128_small" := by
  refine ⟨by decide, by decide, by decide⟩

/-- C2 (amended): the computed output directory is
`{output_dir}/{model_type}/{model_type}_pabsa_S{max_len}_{size_tag}`
where `size_tag` is the LAST of "small"/"large"/"base" (in that scan
order) occurring as a substring of the checkpoint path — equivalently,
"base" takes precedence over "large" over "small" — and "nosize" when
none occurs; in particular, for a checkpoint path containing only
"base", the directory ends with `{model_type}_pabsa_S{max_len}_base`. -/
theorem C2_amended :
    (∀ od mt p : String, ∀ ml : Int,
      output_dir_of od mt ml p =
        od ++ "/" ++ mt ++ "/" ++ mt ++ "_pabsa_S" ++ toString ml ++ "_" ++ model_size_last p) ∧
    output_dir_of "out" "t5" 128 "mt5-base" = "out/t5/t5_pabsa_S128_base" ∧
    output_dir_of "out" "t5" 128 "ckpt" = "out/t5/t5_pabsa_S128_nosize" := by
  refine ⟨fun od mt p ml => ?_, by decide, by decide⟩
  unfold output_dir_of
  rw [model_size_of_eq_last]

/-- C3 (evaluation of the code at the failing input): the prompt-option
coercion `args.prompt_option = int(args.prompt_option)` targets an
attribute that `parse_args` never creates (the declared flag is
`--prompt_option_path`), so the attribute read raises `AttributeError`,
the bare `except` swallows it, and the namespace leaves `init_args`
without any `prompt_option` attribute — no integer is ever stored, for
any invocation, including one whose prompt-option string "3" is a
decimal integer literal. -/
theorem C3_coercion_is_dead_code :
    lookupAttr (parse_args_namespace
      { task := "aste", model_type := some "t5", prompt_option_path := some "3" })
      "prompt_option" = none ∧
    try_coerce_prompt_option (parse_args_namespace
      { task := "aste", model_type := some "t5", prompt_option_path := some "3" }) =
      parse_args_namespace
        { task := "aste", model_type := some "t5", prompt_option_path := some "3" } ∧
    lookupAttr (init_args
      { task := "aste", model_type := some "t5", prompt_option_path := some "3" })
      "prompt_option" = none := by
  refine ⟨by decide, by decide, by decide⟩

/-- C4: for each of the seven known identifiers, the factory returns a
bundle pairing exactly the model and tokenizer classes of the registry,
tagged with the given identifier and checkpoint location. -/
theorem C4_factory_registry (path : String) (margs targs : List (String × PyVal)) :
    get_gabsa_tokenizer_and_model "t5" path margs targs =
      .ok ⟨⟨.T5ForConditionalGeneration, path, margs⟩,
        ⟨.T5TokenizerFast, path, targs⟩, "t5", path⟩ ∧
    get_gabsa_tokenizer_and_model "byt5" path margs targs =
      .ok ⟨⟨.T5ForConditionalGeneration, path, margs⟩,
        ⟨.ByT5Tokenizer, path, targs⟩, "byt5", path⟩ ∧
    get_gabsa_tokenizer_and_model "mt5" path margs targs =
      .ok ⟨⟨.MT5ForConditionalGeneration, path, margs⟩,
        ⟨.T5TokenizerFast, path, targs⟩, "mt5", path⟩ ∧
    get_gabsa_tokenizer_and_model "xglm" path margs targs =
      .ok ⟨⟨.XGLMForCausalLM, path, margs⟩,
        ⟨.XGLMTokenizerFast, path, targs⟩, "xglm", path⟩ ∧
    get_gabsa_tokenizer_and_model "bart" path margs targs =
      .ok ⟨⟨.BartForConditionalGeneration, path, margs⟩,
        ⟨.BartTokenizerFast, path, targs⟩, "bart", path⟩ ∧
    get_gabsa_tokenizer_and_model "mbart" path margs targs =
      .ok ⟨⟨.MBartForConditionalGeneration, path, margs⟩,
        ⟨.MBartTokenizerFast, path, targs⟩, "mbart", path⟩ ∧
    get_gabsa_tokenizer_and_model "gpt2" path margs targs =
      .ok ⟨⟨.GPT2LMHeadModel, path, margs⟩,
        ⟨.GPT2TokenizerFast, path, targs⟩, "gpt2", path⟩ :=
  ⟨rfl, rfl, rfl, rfl, rfl, rfl, rfl⟩

/-- C5: for every model-type identifier outside the seven-entry registry,
the factory raises `NotImplementedError` and returns no bundle, and
`batch_encode` with a model type in neither the sequence-to-sequence set
nor the language-modeling set raises `NotImplementedError` as well. -/
theorem C5_unknown_type_errors (mt : String) (h : mt ∉ registry_ids) :
    (∀ path margs targs, get_gabsa_tokenizer_and_model mt path margs targs =
      .error "NotImplementedError") ∧
    (∀ input text_target, batch_encode mt input text_target =
      .error "NotImplementedError") := by
  simp only [registry_ids, List.mem_cons, List.not_mem_nil, or_false, not_or] at h
  obtain ⟨h1, h2, h3, h4, h5, h6, h7⟩ := h
  constructor
  · intro path margs targs
    simp [get_gabsa_tokenizer_and_model, h1, h2, h3, h4, h5, h6, h7]
  · intro input text_target
    simp [batch_encode, model_types.lm, model_types.seq2seq, h1, h2, h3, h4, h5, h6, h7]

/-- C5 (witness): at the concrete unknown identifier "llama", the factory
and the encoding step both fail with `NotImplementedError`. -/
theorem C5_witness :
    get_gabsa_tokenizer_and_model "llama" "ckpt" [] [] = .error "NotImplementedError" ∧
    batch_encode "llama" "sent" "tgt" = .error "NotImplementedError" :=
  ⟨(C5_unknown_type_errors "llama" (by decide)).1 "ckpt" [] [],
   (C5_unknown_type_errors "llama" (by decide)).2 "sent" "tgt"⟩

/-- C6: `batch_encode` branches on architecture family exactly as
specified: a causal-language-model type tokenizes the concatenation of
the input and the stringified target joined by a single space in one
tokenizer call; a sequence-to-sequence type passes the input and the
stringified target to the tokenizer as separate source and target
texts. -/
theorem C6_encode_shapes (mt input text_target : String) :
    (mt ∈ model_types.lm →
      batch_encode mt input text_target = .ok (.joint (input ++ " " ++ text_target))) ∧
    (mt ∈ model_types.seq2seq →
      batch_encode mt input text_target = .ok (.withTarget input text_target)) := by
  constructor
  · intro h
    unfold batch_encode
    rw [if_pos h]
  · intro h
    have hlm : mt ∉ model_types.lm := by
      simp only [model_types.seq2seq, List.mem_cons, List.not_mem_nil, or_false] at h
      rcases h with rfl | rfl | rfl | rfl | rfl <;> decide
    unfold batch_encode
    rw [if_neg hlm, if_pos h]

/-- C6 (witness): the two branch shapes at concrete inputs, "gpt2" for
the causal-LM family and "t5" for the sequence-to-sequence family. -/
theorem C6_encode_shapes_witness :
    batch_encode "gpt2" "sent" "tgt" = .ok (.joint ("sent" ++ " " ++ "tgt")) ∧
    batch_encode "t5" "sent" "tgt" = .ok (.withTarget "sent" "tgt") :=
  ⟨(C6_encode_shapes "gpt2" "sent" "tgt").1 (by decide),
   (C6_encode_shapes "t5" "sent" "tgt").2 (by decide)⟩

/-- C7: in both the training phase and the prediction phase, the
tokenizer is constructed (through the factory) with padding side "left"
exactly for the language-modeling identifiers "xglm" and "gpt2", and
"right" for the other five known identifiers. -/
theorem C7_padding_sides (path : String) :
    bundleTokenizerArgs (train_phase_bundle "xglm" path) =
      some [("padding_side", .pstr "left")] ∧
    bundleTokenizerArgs (train_phase_bundle "gpt2" path) =
      some [("padding_side", .pstr "left")] ∧
    bundleTokenizerArgs (train_phase_bundle "t5" path) =
      some [("padding_side", .pstr "right")] ∧
    bundleTokenizerArgs (train_phase_bundle "byt5" path) =
      some [("padding_side", .pstr "right")] ∧
    bundleTokenizerArgs (train_phase_bundle "mt5" path) =
      some [("padding_side", .pstr "right")] ∧
    bundleTokenizerArgs (train_phase_bundle "bart" path) =
      some [("padding_side", .pstr "right")] ∧
    bundleTokenizerArgs (train_phase_bundle "mbart" path) =
      some [("padding_side", .pstr "right")] ∧
    bundleTokenizerArgs (predict_phase_bundle "xglm" path) =
      some [("padding_side", .pstr "left")] ∧
    bundleTokenizerArgs (predict_phase_bundle "gpt2" path) =
      some [("padding_side", .pstr "left")] ∧
    bundleTokenizerArgs (predict_phase_bundle "t5" path) =
      some [("padding_side", .pstr "right")] ∧
    bundleTokenizerArgs (predict_phase_bundle "byt5" path) =
      some [("padding_side", .pstr "right")] ∧
    bundleTokenizerArgs (predict_phase_bundle "mt5" path) =
      some [("padding_side", .pstr "right")] ∧
    bundleTokenizerArgs (predict_phase_bundle "bart" path) =
      some [("padding_side", .pstr "right")] ∧
    bundleTokenizerArgs (predict_phase_bundle "mbart" path) =
      some [("padding_side", .pstr "right")] :=
  ⟨rfl, rfl, rfl, rfl, rfl, rfl, rfl, rfl, rfl, rfl, rfl, rfl, rfl, rfl⟩

/-- C8 (counterexample): the claim says the output directory and its
nested "data" subdirectory are created whenever absent, in particular
when the output directory exists but "data" does not.  With the computed
output directory already on disk and its "data" subdirectory absent, the
run performs NO directory creation at all (the `makedirs` call is
guarded by `not os.path.exists(output_dir)` alone), while still issuing
the three CSV writes into the absent "data" directory. -/
theorem C8_counterexample :
    ("out/t5/t5_pabsa_S128_nosize/data") ∉ (["out/t5/t5_pabsa_S128_nosize"] : List String) ∧
    main_run { task := "aste", do_eval := true, model_type := some "t5",
                      model_name_or_path := some "ckpt", output_dir := some "out" }
      ["out/t5/t5_pabsa_S128_nosize"] =
      .ok [.build_dataset,
           .write_csv "out/t5/t5_pabsa_S128_nosize/data/train.csv",
           .write_csv "out/t5/t5_pabsa_S128_nosize/data/dev.csv",
           .write_csv "out/t5/t5_pabsa_S128_nosize/data/test.csv"] ∧
    (∀ p : String, Effect.makedirs p ∉
      [Effect.build_dataset,
       Effect.write_csv "out/t5/t5_pabsa_S128_nosize/data/train.csv",
       Effect.write_csv "out/t5/t5_pabsa_S128_nosize/data/dev.csv",
       Effect.write_csv "out/t5/t5_pabsa_S128_nosize/data/test.csv"]) := by
  refine ⟨by decide, by rfl, fun p => by simp⟩

/-- C8 (amended): for every invocation with at least one phase requested,
`output_dir/data` (with its parents) is created exactly when the
computed output directory itself is absent — when the output directory
already exists, nothing is created, even if its "data" subdirectory is
missing — and the three split CSVs are written into the "data"
subdirectory regardless of which phases run. -/
theorem C8_amended (cli : CLIInput) (fs : List String) (mnp od0 mt : String)
    (hm : cli.model_name_or_path = some mnp) (ho : cli.output_dir = some od0)
    (hmt : cli.model_type = some mt)
    (hphase : cli.do_train = true ∨ cli.do_eval = true ∨ cli.do_predict = true) :
    ∃ t, main_run cli fs = .ok t ∧
      (Effect.makedirs (output_dir_of od0 mt cli.max_len mnp ++ "/data") ∈ t ↔
        output_dir_of od0 mt cli.max_len mnp ∉ fs) ∧
      Effect.write_csv (output_dir_of od0 mt cli.max_len mnp ++ "/data/train.csv") ∈ t ∧
      Effect.write_csv (output_dir_of od0 mt cli.max_len mnp ++ "/data/dev.csv") ∈ t ∧
      Effect.write_csv (output_dir_of od0 mt cli.max_len mnp ++ "/data/test.csv") ∈ t := by
  have hcond : (!cli.do_train && !cli.do_eval && !cli.do_predict) = false := by
    rcases hphase with h | h | h <;> simp [h]
  unfold main_run
  rw [hcond, hm, ho, hmt]
  simp only [Bool.false_eq_true, if_false]
  refine ⟨_, rfl, ?_, ?_, ?_, ?_⟩
  · by_cases hfs : output_dir_of od0 mt cli.max_len mnp ∈ fs <;>
      simp [hfs, List.mem_append]
  · simp [List.mem_append]
  · simp [List.mem_append]
  · simp [List.mem_append]

/-- C8 (witness for the amended theorem): an eval-only run whose output
directory is absent creates it and writes the three CSVs. -/
theorem C8_amended_witness :
    ∃ t, main_run { task := "aste", do_eval := true, model_type := some "t5",
                      model_name_or_path := some "ckpt", output_dir := some "out" } [] = .ok t ∧
      (Effect.makedirs (output_dir_of "out" "t5" 128 "ckpt" ++ "/data") ∈ t ↔
        output_dir_of "out" "t5" 128 "ckpt" ∉ ([] : List String)) ∧
      Effect.write_csv (output_dir_of "out" "t5" 128 "ckpt" ++ "/data/train.csv") ∈ t ∧
      Effect.write_csv (output_dir_of "out" "t5" 128 "ckpt" ++ "/data/dev.csv") ∈ t ∧
      Effect.write_csv (output_dir_of "out" "t5" 128 "ckpt" ++ "/data/test.csv") ∈ t :=
  C8_amended { task := "aste", do_eval := true, model_type := some "t5",
                      model_name_or_path := some "ckpt", output_dir := some "out" } []
    "ckpt" "out" "t5" rfl rfl rfl (Or.inr (Or.inl rfl))

/-- C9: when `do_train`, `do_eval` and `do_predict` are all false, `main`
logs one informational message and returns successfully with no dataset
build, no directory creation, no file write, and no phase call (models
and tokenizers are constructed only inside the train/predict phase
calls). -/
theorem C9_no_phase_noop (cli : CLIInput) (fs : List String)
    (h1 : cli.do_train = false) (h2 : cli.do_eval = false) (h3 : cli.do_predict = false) :
    main_run cli fs = .ok [Effect.log_info no_phase_msg] ∧
    Effect.build_dataset ∉ [Effect.log_info no_phase_msg] ∧
    (∀ p, Effect.write_csv p ∉ [Effect.log_info no_phase_msg]) ∧
    (∀ p, Effect.makedirs p ∉ [Effect.log_info no_phase_msg]) ∧
    Effect.call_train ∉ [Effect.log_info no_phase_msg] ∧
    Effect.call_predict ∉ [Effect.log_info no_phase_msg] := by
  refine ⟨?_, by simp, fun p => by simp, fun p => by simp, by simp, by simp⟩
  unfold main_run
  rw [h1, h2, h3]
  rfl

/-- C9 (witness): the all-defaults invocation logs and stops. -/
theorem C9_no_phase_noop_witness :
    main_run { task := "aste" } [] = .ok [Effect.log_info no_phase_msg] ∧
    Effect.build_dataset ∉ [Effect.log_info no_phase_msg] ∧
    (∀ p, Effect.write_csv p ∉ [Effect.log_info no_phase_msg]) ∧
    (∀ p, Effect.makedirs p ∉ [Effect.log_info no_phase_msg]) ∧
    Effect.call_train ∉ [Effect.log_info no_phase_msg] ∧
    Effect.call_predict ∉ [Effect.log_info no_phase_msg] :=
  C9_no_phase_noop { task := "aste" } [] rfl rfl rfl

/-- C10: an eval-only invocation (`do_eval` true, `do_train` and
`do_predict` false) builds the dataset splits and writes the three split
CSVs, but never calls the training phase or the prediction phase — so no
model or tokenizer is constructed and no metrics or prediction file is
written (those happen only inside the two phase calls). -/
theorem C10_eval_only (cli : CLIInput) (fs : List String) (mnp od0 mt : String)
    (hm : cli.model_name_or_path = some mnp) (ho : cli.output_dir = some od0)
    (hmt : cli.model_type = some mt)
    (he : cli.do_eval = true) (ht : cli.do_train = false) (hp : cli.do_predict = false) :
    ∃ t, main_run cli fs = .ok t ∧
      Effect.build_dataset ∈ t ∧
      Effect.write_csv (output_dir_of od0 mt cli.max_len mnp ++ "/data/train.csv") ∈ t ∧
      Effect.write_csv (output_dir_of od0 mt cli.max_len mnp ++ "/data/dev.csv") ∈ t ∧
      Effect.write_csv (output_dir_of od0 mt cli.max_len mnp ++ "/data/test.csv") ∈ t ∧
      Effect.call_train ∉ t ∧
      Effect.call_predict ∉ t := by
  have hcond : (!cli.do_train && !cli.do_eval && !cli.do_predict) = false := by
    simp [he]
  unfold main_run
  rw [hcond, hm, ho, hmt, ht, hp]
  simp only [Bool.false_eq_true, if_false]
  refine ⟨_, rfl, ?_, ?_, ?_, ?_, ?_, ?_⟩ <;> simp [List.mem_append]

/-- C10 (witness): a concrete eval-only invocation. -/
theorem C10_eval_only_witness :
    ∃ t, main_run { task := "aste", do_eval := true, model_type := some "t5",
                      model_name_or_path := some "ckpt", output_dir := some "out" } [] = .ok t ∧
      Effect.build_dataset ∈ t ∧
      Effect.write_csv (output_dir_of "out" "t5" 128 "ckpt" ++ "/data/train.csv") ∈ t ∧
      Effect.write_csv (output_dir_of "out" "t5" 128 "ckpt" ++ "/data/dev.csv") ∈ t ∧
      Effect.write_csv (output_dir_of "out" "t5" 128 "ckpt" ++ "/data/test.csv") ∈ t ∧
      Effect.call_train ∉ t ∧
      Effect.call_predict ∉ t :=
  C10_eval_only { task := "aste", do_eval := true, model_type := some "t5",
                      model_name_or_path := some "ckpt", output_dir := some "out" } []
    "ckpt" "out" "t5" rfl rfl rfl rfl rfl rfl
